import Mathlib

set_option linter.unusedVariables false

deriving instance DecidableEq for Except

/-! Shallow embedding of the container core of builder_os:
src/app/container/types.py, src/app/container/manager.py and
src/app/container/config.py.  The Docker client is the external container
engine; it is modelled as a record of response functions, the same role the
Mock client plays in src/tests/test_container_manager.py.  Python exceptions
are values of PyExc.  Each manager operation returns its result, the
manager's fields after the call, and the list of engine calls it issued, in
order. -/

/-- Container status strings, types.py lines 7-18 (class ContainerStatus).
The source enumeration has exactly these ten members; in particular it has
no FAILED member, even though manager.py's get_status evaluates
ContainerStatus.FAILED and the repository's own tests
(test_container_types.py line 70) expect one. -/
inductive ContainerStatus
  | created
  | running
  | exited
  | paused
  | restarting
  | removing
  | error
  | unknown
  | stopped
  | dead
deriving DecidableEq

/-- The value string of each ContainerStatus member (types.py lines 9-18). -/
def containerStatusValue : ContainerStatus → String
  | .created => "created"
  | .running => "running"
  | .exited => "exited"
  | .paused => "paused"
  | .restarting => "restarting"
  | .removing => "removing"
  | .error => "error"
  | .unknown => "unknown"
  | .stopped => "stopped"
  | .dead => "dead"

/-- Enum lookup by value, the Python call ContainerStatus(s): the member
whose value is s, or none (a ValueError in Python) when no member matches. -/
def containerStatusOfValue (s : String) : Option ContainerStatus :=
  if s = "created" then some .created
  else if s = "running" then some .running
  else if s = "exited" then some .exited
  else if s = "paused" then some .paused
  else if s = "restarting" then some .restarting
  else if s = "removing" then some .removing
  else if s = "error" then some .error
  else if s = "unknown" then some .unknown
  else if s = "stopped" then some .stopped
  else if s = "dead" then some .dead
  else none

/-- Operating system types, types.py lines 21-28 (class OSType). -/
inductive OSType
  | ubuntu
  | debian
  | centos
  | alpine
  | fedora
  | archlinux
deriving DecidableEq, BEq

/-- The value string of each OSType member (types.py lines 23-28). -/
def osTypeValue : OSType → String
  | .ubuntu => "ubuntu"
  | .debian => "debian"
  | .centos => "centos"
  | .alpine => "alpine"
  | .fedora => "fedora"
  | .archlinux => "archlinux"

/-- The Python enum member name of each OSType member (UBUNTU, DEBIAN, ...). -/
def osTypeName : OSType → String
  | .ubuntu => "UBUNTU"
  | .debian => "DEBIAN"
  | .centos => "CENTOS"
  | .alpine => "ALPINE"
  | .fedora => "FEDORA"
  | .archlinux => "ARCHLINUX"

/-- Enum lookup by member name, the Python indexing OSType[s]: the member
with that name, or none (a KeyError in Python) when no member matches. -/
def osTypeFromName (s : String) : Option OSType :=
  if s = "UBUNTU" then some .ubuntu
  else if s = "DEBIAN" then some .debian
  else if s = "CENTOS" then some .centos
  else if s = "ALPINE" then some .alpine
  else if s = "FEDORA" then some .fedora
  else if s = "ARCHLINUX" then some .archlinux
  else none

/-- Package manager types, types.py lines 31-38 (class PackageManager). -/
inductive PackageManagerKind
  | apt
  | yum
  | dnf
  | pacman
  | zypper
  | apk
deriving DecidableEq, BEq

/-- Package manager configuration settings, types.py lines 51-62
(dataclass PackageManagerConfig). -/
structure PackageManagerConfig where
  update_cmd : String
  install_cmd : String
  remove_cmd : String
  upgrade_cmd : String
  search_cmd : String
  list_cmd : String
  show_cmd : String
  clean_cmd : String
  require_packages : List String
deriving DecidableEq

/-- Container configuration settings, types.py lines 65-74
(dataclass ContainerConfig).  Python dicts are modelled as association
lists in insertion order; None is modelled as Option.none. -/
structure ContainerConfig where
  os_type : OSType
  os_version : Option String := none
  name : Option String := none
  volumes : Option (List (String × String)) := none
  environment : Option (List (String × String)) := none
  working_dir : Option String := none
  command : Option String := none
deriving DecidableEq

/-- Modelled from the spec: the container exception taxonomy of
app/container/exceptions.py, a module the repository's manager, config and
tests import but whose file is not under src/.  Per spec section 7 it is one
taxonomy rooted at a generic container operation error, with configuration,
lifecycle and execution members, each carrying its message
(test_container_types.py exercises exactly these seven class names plus
ContainerConfigError and ContainerRestartError).  dockerException stands for
the engine's native DockerException; attributeError, unboundLocalError,
valueError and keyError stand for Python's built-in runtime faults, which no
except clause of the source catches. -/
inductive PyExc
  | containerError (msg : String)
  | containerCreateError (msg : String)
  | containerStartError (msg : String)
  | containerStopError (msg : String)
  | containerExecuteError (msg : String)
  | containerNotFoundError (msg : String)
  | containerRemoveError (msg : String)
  | containerConfigError (msg : String)
  | dockerException (msg : String)
  | attributeError (msg : String)
  | unboundLocalError (name : String)
  | valueError (msg : String)
  | keyError (msg : String)
deriving DecidableEq

/-- The message str(e) of an exception value. -/
def pyExcMessage : PyExc → String
  | .containerError m => m
  | .containerCreateError m => m
  | .containerStartError m => m
  | .containerStopError m => m
  | .containerExecuteError m => m
  | .containerNotFoundError m => m
  | .containerRemoveError m => m
  | .containerConfigError m => m
  | .dockerException m => m
  | .attributeError m => m
  | .unboundLocalError n => n
  | .valueError m => m
  | .keyError m => m

/-- Python truthiness of an Optional[str]: None and the empty string are
falsy, every other string is truthy. -/
def pyTruthy : Option String → Bool
  | none => false
  | some s => s ≠ ""

/-- Python truthiness of an Optional[Dict]: None and the empty dict are
falsy, every non-empty dict is truthy. -/
def pyTruthyMap : Option (List (String × String)) → Bool
  | none => false
  | some m => m ≠ []

/-- Python str.upper, an executable character map (the configuration's
enumeration names are all ASCII, where Python and Lean agree). -/
def pyUpper (s : String) : String := ⟨s.data.map Char.toUpper⟩

/-- Python str.lower, an executable character map (ASCII, as above). -/
def pyLower (s : String) : String := ⟨s.data.map Char.toLower⟩

/-- Python f-string formatting of an Optional[str]: None prints as "None". -/
def pyFormatOpt : Option String → String
  | some s => s
  | none => "None"

/-- A docker container object as the manager sees it: its id, its name and
its cached status attribute (refreshed by reload). -/
structure Container where
  id : String
  name : String
  status : String
deriving DecidableEq

/-- The keyword arguments manager.py passes to the engine's
containers.create call (manager.py lines 77-85). -/
structure CreateArgs where
  image : String
  name : Option String
  volumes : List (String × String × String)
  environment : Option (List (String × String))
  working_dir : Option String
  command : String
  detach : Bool
deriving DecidableEq

/-- The container engine (the docker client), modelled as a record of
response functions: each .error answer stands for a DockerException with
that message, mirroring how src/tests mocks the client.  execRun answers
with the exit code and the demuxed (stdout, stderr) pair, each stream None
or captured text. -/
structure Engine where
  listByName : String → Except String (List Container)
  pullImage : String → Except String Unit
  createContainer : CreateArgs → Except String Container
  reload : Container → Except String Container
  start : Container → Except String Unit
  stop : Container → Except String Unit
  removeContainer : Container → Bool → Except String Unit
  execRun : Container → String → Except String (Int × Option String × Option String)

/-- One call issued to the engine, recorded in order. -/
inductive EngineCall
  | list (name : String)
  | pull (image : String)
  | create (image : String) (name : Option String)
  | reload
  | start
  | stop
  | remove (force : Bool)
  | execRun (cmd : String)
deriving DecidableEq

/-- The mutable fields of a ContainerManager instance (manager.py lines
31-32): the held container handle and the bound configuration. -/
structure ManagerState where
  container : Option Container := none
  currentConfig : Option ContainerConfig := none
deriving DecidableEq

/-- What one manager operation produces: the Python return value or the
exception that propagates, the manager's fields afterwards, and the engine
calls issued. -/
structure OpResult (α : Type) where
  result : Except PyExc α
  state : ManagerState
  calls : List EngineCall

namespace ContainerManager

/-- The tail of create after the adopt-by-name check (manager.py lines
64-94): pull the image, translate the volume mapping, issue the engine
create call.  The local variable volumes is only assigned under
`if config.volumes:` (line 67), so when the mapping is falsy the reference
at line 80 raises UnboundLocalError, which `except DockerException` does not
catch. -/
def createRest (eng : Engine) (s : ManagerState) (config : ContainerConfig)
    (imageName : String) (calls : List EngineCall) : OpResult String :=
  match eng.pullImage imageName with
  | .error e =>
      ⟨.error (.containerCreateError ("Container creation failed: " ++ e)), s,
        calls ++ [.pull imageName]⟩
  | .ok _ =>
      if pyTruthyMap config.volumes then
        let volumes := (config.volumes.getD []).map fun p => (p.1, p.2, "rw")
        match eng.createContainer
            ⟨imageName, config.name, volumes, config.environment,
              config.working_dir, "sleep infinity", true⟩ with
        | .error e =>
            ⟨.error (.containerCreateError ("Container creation failed: " ++ e)), s,
              calls ++ [.pull imageName, .create imageName config.name]⟩
        | .ok c =>
            ⟨.ok c.id, { s with container := some c },
              calls ++ [.pull imageName, .create imageName config.name]⟩
      else
        ⟨.error (.unboundLocalError "volumes"), s, calls ++ [.pull imageName]⟩

/-- manager.py lines 45-94, ContainerManager.create: bind the new config
first, then adopt an existing same-named container if the engine lists one,
otherwise pull the image and create the container. -/
def create (eng : Engine) (s : ManagerState) (config : ContainerConfig) :
    OpResult String :=
  let s := { s with currentConfig := some config }
  let imageName := osTypeValue config.os_type ++ ":" ++ pyFormatOpt config.os_version
  if pyTruthy config.name then
    match eng.listByName (config.name.getD "") with
    | .error e =>
        ⟨.error (.containerCreateError ("Container creation failed: " ++ e)), s,
          [.list (config.name.getD "")]⟩
    | .ok (c :: _) =>
        ⟨.ok c.id, { s with container := some c }, [.list (config.name.getD "")]⟩
    | .ok [] => createRest eng s config imageName [.list (config.name.getD "")]
  else
    createRest eng s config imageName []

/-- The final engine remove call of ContainerManager.remove (manager.py
lines 110-117): on success both the handle and the bound config are
cleared. -/
def removeFinal (eng : Engine) (s : ManagerState) (c : Container) (force : Bool)
    (calls : List EngineCall) : OpResult Unit :=
  match eng.removeContainer c force with
  | .error e =>
      ⟨.error (.containerRemoveError ("Container removal failed: " ++ e)), s,
        calls ++ [.remove force]⟩
  | .ok _ => ⟨.ok (), { container := none, currentConfig := none }, calls ++ [.remove force]⟩

/-- manager.py lines 96-117, ContainerManager.remove: without force,
reload and courtesy-stop a running container first; with force, remove
unconditionally. -/
def remove (eng : Engine) (s : ManagerState) (force : Bool) : OpResult Unit :=
  match s.container with
  | none => ⟨.error (.containerNotFoundError "No container created"), s, []⟩
  | some c =>
      if !force then
        match eng.reload c with
        | .error e =>
            ⟨.error (.containerRemoveError ("Container removal failed: " ++ e)), s,
              [.reload]⟩
        | .ok c' =>
            let s' := { s with container := some c' }
            if c'.status = "running" then
              match eng.stop c' with
              | .error e =>
                  ⟨.error (.containerRemoveError ("Container removal failed: " ++ e)),
                    s', [.reload, .stop]⟩
              | .ok _ => removeFinal eng s' c' force [.reload, .stop]
            else
              removeFinal eng s' c' force [.reload]
      else
        removeFinal eng s c force []

/-- The error-message expression of manager.py line 169:
`output[1].decode() if output[1] else output[0].decode()`.  An empty or
absent stderr falls back to stdout; when stdout is also None, the .decode
attribute access on None raises AttributeError. -/
def execErrorMessage (out0 out1 : Option String) : Except PyExc String :=
  if pyTruthy out1 then .ok (out1.getD "")
  else
    match out0 with
    | some t => .ok t
    | none => .error (.attributeError "NoneType object has no attribute decode")

/-- The exec_run phase of ContainerManager.execute (manager.py lines
163-177): run the command, raise ContainerExecuteError on a non-zero exit
code, otherwise return stripped stdout (empty when no stdout). -/
def execPhase (eng : Engine) (s : ManagerState) (c : Container) (command : String)
    (calls : List EngineCall) : OpResult String :=
  match eng.execRun c command with
  | .error e =>
      ⟨.error (.containerExecuteError ("Command execution failed: " ++ e)), s,
        calls ++ [.execRun command]⟩
  | .ok (exitCode, out0, out1) =>
      if exitCode ≠ 0 then
        match execErrorMessage out0 out1 with
        | .ok m =>
            ⟨.error (.containerExecuteError
                ("Command failed with exit code " ++ toString exitCode ++ ": " ++ m)),
              s, calls ++ [.execRun command]⟩
        | .error e => ⟨.error e, s, calls ++ [.execRun command]⟩
      else
        ⟨.ok (if pyTruthy out0 then (out0.getD "").trim else ""), s,
          calls ++ [.execRun command]⟩

/-- manager.py lines 150-180, ContainerManager.execute: re-check live
status, auto-start a non-running container, then run the command inside
it. -/
def execute (eng : Engine) (s : ManagerState) (command : String) : OpResult String :=
  match s.container with
  | none => ⟨.error (.containerNotFoundError "No container created"), s, []⟩
  | some c =>
      match eng.reload c with
      | .error e =>
          ⟨.error (.containerExecuteError ("Command execution failed: " ++ e)), s,
            [.reload]⟩
      | .ok c' =>
          let s' := { s with container := some c' }
          if c'.status ≠ "running" then
            match eng.start c' with
            | .error e =>
                ⟨.error (.containerExecuteError ("Command execution failed: " ++ e)),
                  s', [.reload, .start]⟩
            | .ok _ => execPhase eng s' c' command [.reload, .start]
          else
            execPhase eng s' c' command [.reload]

/-- The expression ContainerStatus.FAILED of manager.py lines 185 and 190:
types.py's ContainerStatus enumeration (lines 7-18) declares no FAILED
member, so in Python the attribute access itself raises AttributeError. -/
def containerStatusFAILED : Except PyExc ContainerStatus :=
  .error (.attributeError "type object ContainerStatus has no attribute FAILED")

/-- manager.py lines 182-190, ContainerManager.get_status: evaluate
ContainerStatus.FAILED when no handle is held or the reload raises a
DockerException, otherwise convert the reloaded status string through the
ContainerStatus enumeration. -/
def get_status (eng : Engine) (s : ManagerState) : OpResult ContainerStatus :=
  match s.container with
  | none => ⟨containerStatusFAILED, s, []⟩
  | some c =>
      match eng.reload c with
      | .error _ => ⟨containerStatusFAILED, s, [.reload]⟩
      | .ok c' =>
          match containerStatusOfValue c'.status with
          | some st => ⟨.ok st, { s with container := some c' }, [.reload]⟩
          | none =>
              ⟨.error (.valueError (c'.status ++ " is not a valid ContainerStatus")),
                { s with container := some c' }, [.reload]⟩

end ContainerManager

/-- A configuration document as config.py reads and writes it: the YAML
file I/O (an excluded thin wrapper per spec section 1) is abstracted to the
structured key-value dictionary it carries.  An outer none means the key is
absent from the document; for os_type and os_version — the keys checked
with `in` — a present-but-null value is distinguished as some none.
Optional scalar keys read through dict.get collapse null and absent to
None, so one Option suffices for them. -/
structure Doc where
  os_type : Option (Option String) := none
  os_version : Option (Option String) := none
  name : Option String := none
  volumes : Option (List (String × String)) := none
  environment : Option (List (String × String)) := none
  working_dir : Option String := none
  command : Option String := none
deriving DecidableEq

namespace ContainerConfigManager

/-- The body of the try block of config.py lines 39-60 (_parse_config):
check the two required keys, look the OS family up by upper-cased
enumeration name, and build the ContainerConfig, defaulting volumes and
environment to the empty dict.  A null os_type reaches .upper() and raises
AttributeError. -/
def parse_config_body (d : Doc) : Except PyExc ContainerConfig :=
  match d.os_type, d.os_version with
  | none, _ =>
      .error (.containerConfigError "Missing required fields: os_type and os_version")
  | _, none =>
      .error (.containerConfigError "Missing required fields: os_type and os_version")
  | some tv, some ver =>
      match tv with
      | none => .error (.attributeError "NoneType object has no attribute upper")
      | some s =>
          match osTypeFromName (pyUpper s) with
          | none => .error (.containerConfigError ("Unsupported OS type: " ++ s))
          | some os =>
              .ok { os_type := os
                    os_version := ver
                    name := d.name
                    volumes := some (d.volumes.getD [])
                    environment := some (d.environment.getD [])
                    working_dir := d.working_dir
                    command := d.command }

/-- config.py lines 37-62, ContainerConfigManager._parse_config: the
enclosing `except Exception` re-wraps every exception of the body —
including the body's own ContainerConfigError raises — into
ContainerConfigError with the prefix `Error parsing config: `. -/
def parse_config (d : Doc) : Except PyExc ContainerConfig :=
  match parse_config_body d with
  | .ok c => .ok c
  | .error e =>
      .error (.containerConfigError ("Error parsing config: " ++ pyExcMessage e))

/-- config.py lines 64-86, ContainerConfigManager.save_to_file, up to the
YAML dump: build the document with the required keys always present
(os_type as the lower-cased enumeration name, os_version as stored, null
included) and each optional key only when its value is truthy. -/
def save_to_file (config : ContainerConfig) : Doc :=
  { os_type := some (some (pyLower (osTypeName config.os_type)))
    os_version := some config.os_version
    name := if pyTruthy config.name then config.name else none
    volumes := if pyTruthyMap config.volumes then config.volumes else none
    environment := if pyTruthyMap config.environment then config.environment else none
    working_dir := if pyTruthy config.working_dir then config.working_dir else none
    command := if pyTruthy config.command then config.command else none }

end ContainerConfigManager

/-- config.py lines 106-178, PACKAGE_MANAGER_CONFIGS: one profile per
package manager kind. -/
def PACKAGE_MANAGER_CONFIGS : List (PackageManagerKind × PackageManagerConfig) :=
  [(.apt,
    { update_cmd := "apt update"
      install_cmd := "apt install -y"
      remove_cmd := "apt remove -y"
      upgrade_cmd := "apt upgrade -y"
      search_cmd := "apt search"
      list_cmd := "apt list"
      show_cmd := "apt show"
      clean_cmd := "apt clean"
      require_packages :=
        ["apt", "apt-utils", "apt-transport-https", "ca-certificates", "curl",
          "gnupg-agent", "software-properties-common"] }),
   (.yum,
    { update_cmd := "yum update -y"
      install_cmd := "yum install -y"
      remove_cmd := "yum remove -y"
      upgrade_cmd := "yum upgrade -y"
      search_cmd := "yum search"
      list_cmd := "yum list"
      show_cmd := "yum show"
      clean_cmd := "yum clean"
      require_packages := ["yum", "yum-utils", "epel-release", "python3", "python3-pip"] }),
   (.dnf,
    { update_cmd := "dnf update -y"
      install_cmd := "dnf install -y"
      remove_cmd := "dnf remove -y"
      upgrade_cmd := "dnf upgrade -y"
      search_cmd := "dnf search"
      list_cmd := "dnf list"
      show_cmd := "dnf show"
      clean_cmd := "dnf clean"
      require_packages := ["dnf", "python3", "python3-pip"] }),
   (.pacman,
    { update_cmd := "pacman -Syu --noconfirm"
      install_cmd := "pacman -S --noconfirm"
      remove_cmd := "pacman -Rns --noconfirm"
      upgrade_cmd := "pacman -Su --noconfirm"
      search_cmd := "pacman -Ss"
      list_cmd := "pacman -Ql"
      show_cmd := "pacman -Qi"
      clean_cmd := "pacman -Sc"
      require_packages := ["pacman", "python3", "python3-pip"] }),
   (.zypper,
    { update_cmd := "zypper refresh"
      install_cmd := "zypper install -y"
      remove_cmd := "zypper remove -y"
      upgrade_cmd := "zypper update -y"
      search_cmd := "zypper search"
      list_cmd := "zypper list"
      show_cmd := "zypper info"
      clean_cmd := "zypper clean"
      require_packages := ["zypper", "python3", "python3-pip"] }),
   (.apk,
    { update_cmd := "apk update"
      install_cmd := "apk add"
      remove_cmd := "apk del"
      upgrade_cmd := "apk upgrade"
      search_cmd := "apk search"
      list_cmd := "apk list"
      show_cmd := "apk info"
      clean_cmd := "apk cache clean"
      require_packages := ["apk-tools", "python3", "python3-pip"] })]

/-- config.py lines 180-187, OS_PACKAGE_MANAGER_MAPPING: which package
manager serves each operating system family. -/
def OS_PACKAGE_MANAGER_MAPPING : List (OSType × PackageManagerKind) :=
  [(.ubuntu, .apt),
   (.debian, .apt),
   (.centos, .yum),
   (.fedora, .dnf),
   (.alpine, .apk),
   (.archlinux, .pacman)]

/-- The Python repr an OSType member gets in an f-string, OSType.UBUNTU
and so on, used by get_package_manager's error message. -/
def osTypeRepr (os : OSType) : String :=
  "OSType." ++ osTypeName os

/-- config.py lines 96-102, ContainerConfigManager.get_package_manager:
dict.get on the OS mapping, raising ContainerConfigError when the family is
unmapped (enum members are always truthy), then direct dict indexing into
the profile table (a KeyError in Python if the kind were missing). -/
def get_package_manager (os : OSType) : Except PyExc PackageManagerConfig :=
  match List.lookup os OS_PACKAGE_MANAGER_MAPPING with
  | none => .error (.containerConfigError ("Unsupported OS type: " ++ osTypeRepr os))
  | some kind =>
      match List.lookup kind PACKAGE_MANAGER_CONFIGS with
      | some cfg => .ok cfg
      | none => .error (.keyError (osTypeRepr os))

/-! Concrete fixtures, mirroring the mocks and the sample configuration of
src/tests/test_container_manager.py. -/

/-- The sample configuration of test_container_manager.py lines 51-59:
ubuntu 22.04, a name, environment and working dir, and no volume mapping
(the dataclass default None). -/
def sampleConfig : ContainerConfig :=
  { os_type := .ubuntu
    os_version := some "22.04"
    name := some "test-container"
    environment := some [("TEST", "value")]
    working_dir := some "/app" }

/-- An engine on which every call succeeds: no container listed under any
name, image pulls succeed, creation yields the container test-id, reload
echoes the cached handle, and commands exit 0 with stdout "output". -/
def benignEngine : Engine where
  listByName := fun _ => .ok []
  pullImage := fun _ => .ok ()
  createContainer := fun a => .ok ⟨"test-id", a.name.getD "", "created"⟩
  reload := fun c => .ok c
  start := fun _ => .ok ()
  stop := fun _ => .ok ()
  removeContainer := fun _ _ => .ok ()
  execRun := fun _ _ => .ok (0, some "output", none)

/-- An engine whose reload calls raise a DockerException. -/
def reloadFailEngine : Engine :=
  { benignEngine with reload := fun _ => .error "Server error" }

/-- A handle to a currently running container. -/
def runningC : Container := ⟨"test-id", "test-container", "running"⟩

/-- A handle to a container that has exited. -/
def stoppedC : Container := ⟨"test-id", "test-container", "exited"⟩

/-- C1: the spec claims status() never throws and degrades to the Failed
status value both when no handle is held and when the engine query errors.
The code contradicts its own tests (test_get_status_no_container and
test_container_status_values expect ContainerStatus.FAILED to exist):
types.py's enumeration has no FAILED member, so both fallback branches of
get_status raise AttributeError instead of returning a status. -/
theorem get_status_raises_instead_of_failed :
    (ContainerManager.get_status benignEngine ⟨none, none⟩).result
      = .error (.attributeError "type object ContainerStatus has no attribute FAILED")
    ∧ (ContainerManager.get_status reloadFailEngine ⟨some runningC, some sampleConfig⟩).result
      = .error (.attributeError "type object ContainerStatus has no attribute FAILED")
    ∧ (ContainerManager.get_status benignEngine ⟨some runningC, some sampleConfig⟩).result
      = .ok ContainerStatus.running := by
  refine ⟨rfl, rfl, by decide⟩

/-- C2: the spec claims create either returns a container id or fails with
the typed create error for every spec, including one whose volume mapping
is empty or absent.  The code contradicts its own test
(test_create_new_container drives exactly this spec and expects the id
test-id): the local variable volumes is only assigned when config.volumes
is truthy, so a spec without volumes reaches the engine create call with
volumes unbound and a raw UnboundLocalError escapes — except
DockerException does not catch it. -/
theorem create_absent_volumes_unbound_local :
    (ContainerManager.create benignEngine ⟨none, none⟩ sampleConfig).result
      = .error (.unboundLocalError "volumes")
    ∧ (ContainerManager.create benignEngine ⟨none, none⟩
          { sampleConfig with volumes := some [] }).result
      = .error (.unboundLocalError "volumes") := by
  refine ⟨by decide, by decide⟩

/-- The pull-and-create tail of create never touches the bound config. -/
theorem createRest_currentConfig (eng : Engine) (s : ManagerState)
    (cfg : ContainerConfig) (img : String) (calls : List EngineCall) :
    (ContainerManager.createRest eng s cfg img calls).state.currentConfig
      = s.currentConfig := by
  unfold ContainerManager.createRest
  split
  · rfl
  · split
    · dsimp only
      split <;> rfl
    · rfl

/-- When the pull-and-create tail of create fails, the handle is left as it
was. -/
theorem createRest_error_container (eng : Engine) (s : ManagerState)
    (cfg : ContainerConfig) (img : String) (calls : List EngineCall) :
    ∀ e, (ContainerManager.createRest eng s cfg img calls).result = .error e →
      (ContainerManager.createRest eng s cfg img calls).state.container
        = s.container := by
  unfold ContainerManager.createRest
  split
  · intro e h; rfl
  · split
    · dsimp only
      split
      · intro e h; rfl
      · intro e h; exact absurd h (by simp)
    · intro e h; rfl

/-- C10: create replaces the bound spec with the new one before any engine
interaction, so its final state carries the new spec on every path, and on
any failing path the handle is left exactly as it was — in particular a
manager that held no handle still holds none while bound to the new spec. -/
theorem create_binds_config_first (eng : Engine) (s : ManagerState)
    (cfg : ContainerConfig) :
    (ContainerManager.create eng s cfg).state.currentConfig = some cfg
    ∧ (∀ e, (ContainerManager.create eng s cfg).result = .error e →
        (ContainerManager.create eng s cfg).state.container = s.container) := by
  constructor
  · unfold ContainerManager.create
    dsimp only
    split
    · split <;> first
        | rfl
        | exact createRest_currentConfig _ _ _ _ _
    · exact createRest_currentConfig _ _ _ _ _
  · unfold ContainerManager.create
    dsimp only
    intro e
    split
    · split <;> intro h <;> first
        | rfl
        | exact absurd h (by simp)
        | exact createRest_error_container _ _ _ _ _ e h
    · intro h
      exact createRest_error_container _ _ _ _ _ e h

/-- C7: for every operating-system family in the enumeration,
get_package_manager returns a profile whose install command is non-empty
and whose bootstrap package list is non-empty; and it returns an error
precisely when the family is missing from OS_PACKAGE_MANAGER_MAPPING,
which holds for no member of the enumeration. -/
theorem get_package_manager_total : ∀ os : OSType,
    (∃ cfg, get_package_manager os = .ok cfg
        ∧ cfg.install_cmd ≠ "" ∧ cfg.require_packages ≠ [])
    ∧ (List.lookup os OS_PACKAGE_MANAGER_MAPPING = none
        ↔ ∃ m, get_package_manager os = .error m) := by
  intro os
  cases os <;>
    exact ⟨⟨_, rfl, by decide, by decide⟩,
      ⟨fun h => absurd h (by decide), fun ⟨m, hm⟩ => Except.noConfusion hm⟩⟩

/-- C3: after a first create has returned id i for a spec with a non-empty
name, a second create against an engine that (as Docker guarantees for a
unique container name) now lists that container first under the name
returns the same id, and its only engine call is the listing — no image
pull and no engine create call. -/
theorem create_idempotent_by_name
    (eng1 eng2 : Engine) (cfg : ContainerConfig) (s0 : ManagerState)
    (n i : String) (c : Container) (rest : List Container)
    (hn : cfg.name = some n) (hne : n ≠ "")
    (h1 : (ContainerManager.create eng1 s0 cfg).result = .ok i)
    (hl : eng2.listByName n = .ok (c :: rest))
    (hid : c.id = i) :
    (ContainerManager.create eng2 (ContainerManager.create eng1 s0 cfg).state cfg).result
      = .ok i
    ∧ (ContainerManager.create eng2 (ContainerManager.create eng1 s0 cfg).state cfg).calls
      = [EngineCall.list n]
    ∧ (∀ img, EngineCall.pull img
        ∉ (ContainerManager.create eng2 (ContainerManager.create eng1 s0 cfg).state cfg).calls)
    ∧ (∀ img nm, EngineCall.create img nm
        ∉ (ContainerManager.create eng2 (ContainerManager.create eng1 s0 cfg).state cfg).calls) := by
  have hmain : ∀ s1 : ManagerState,
      ContainerManager.create eng2 s1 cfg
        = ⟨.ok i, { container := some c, currentConfig := some cfg }, [.list n]⟩ := by
    intro s1
    unfold ContainerManager.create
    dsimp only
    rw [hn]
    rw [if_pos (by simp [pyTruthy, hne])]
    dsimp only [Option.getD]
    rw [hl]
    dsimp only
    rw [hid]
  refine ⟨?_, ?_, ?_, ?_⟩
  · rw [hmain]
  · rw [hmain]
  · intro img; rw [hmain]; simp
  · intro img nm; rw [hmain]; simp

/-- An engine that lists the already-created container under every name. -/
def adoptListEngine : Engine :=
  { benignEngine with
      listByName := fun _ => .ok [⟨"test-id", "test-container", "created"⟩] }

/-- The sample configuration with a non-empty volume mapping, so that the
first create can reach the engine create call. -/
def volumesConfig : ContainerConfig :=
  { sampleConfig with volumes := some [("/host", "/container")] }

/-- C3 witness: the idempotency theorem applied to a concrete first create
on the benign engine followed by a second create against the engine that
lists the created container. -/
theorem create_idempotent_by_name_witness :
    (ContainerManager.create adoptListEngine
        (ContainerManager.create benignEngine ⟨none, none⟩ volumesConfig).state
        volumesConfig).result = .ok "test-id"
    ∧ (ContainerManager.create adoptListEngine
        (ContainerManager.create benignEngine ⟨none, none⟩ volumesConfig).state
        volumesConfig).calls = [EngineCall.list "test-container"] := by
  have h := create_idempotent_by_name benignEngine adoptListEngine volumesConfig
      ⟨none, none⟩ "test-container" "test-id" ⟨"test-id", "test-container", "created"⟩ []
      rfl (by decide) (by decide) rfl rfl
  exact ⟨h.1, h.2.1⟩

/-- The exec_run phase appends exactly one execRun call, whatever the
outcome. -/
theorem execPhase_calls (eng : Engine) (s : ManagerState) (c : Container)
    (cmd : String) (calls : List EngineCall) :
    (ContainerManager.execPhase eng s c cmd calls).calls
      = calls ++ [EngineCall.execRun cmd] := by
  unfold ContainerManager.execPhase
  split
  · rfl
  · split
    · split <;> rfl
    · rfl

/-- On a non-running container, execute reduces to the exec_run phase after
one reload and one start. -/
theorem execute_reduces_start (eng : Engine) (s : ManagerState) (c c' : Container)
    (cmd : String) (hc : s.container = some c) (hr : eng.reload c = .ok c')
    (hs : c'.status ≠ "running") (hst : eng.start c' = .ok ()) :
    ContainerManager.execute eng s cmd
      = ContainerManager.execPhase eng { s with container := some c' } c' cmd
          [.reload, .start] := by
  unfold ContainerManager.execute
  rw [hc]
  dsimp only
  rw [hr]
  dsimp only
  rw [if_pos hs, hst]

/-- On a running container, execute reduces to the exec_run phase after the
reload alone. -/
theorem execute_reduces_running (eng : Engine) (s : ManagerState) (c c' : Container)
    (cmd : String) (hc : s.container = some c) (hr : eng.reload c = .ok c')
    (hs : c'.status = "running") :
    ContainerManager.execute eng s cmd
      = ContainerManager.execPhase eng { s with container := some c' } c' cmd
          [.reload] := by
  unfold ContainerManager.execute
  rw [hc]
  dsimp only
  rw [hr]
  dsimp only
  rw [if_neg (fun h => h hs)]

/-- C4: when the reloaded live status is not running, execute issues
exactly one start call, after the reload and before the in-container run;
when the container is already running it issues no start call. -/
theorem execute_autostart (eng : Engine) (s : ManagerState) (c c' : Container)
    (cmd : String) (hc : s.container = some c) (hr : eng.reload c = .ok c') :
    (c'.status ≠ "running" → eng.start c' = .ok () →
        (ContainerManager.execute eng s cmd).calls
          = [EngineCall.reload, EngineCall.start, EngineCall.execRun cmd])
    ∧ (c'.status = "running" →
        (ContainerManager.execute eng s cmd).calls
          = [EngineCall.reload, EngineCall.execRun cmd]) := by
  constructor
  · intro hs hst
    rw [execute_reduces_start eng s c c' cmd hc hr hs hst, execPhase_calls]
    rfl
  · intro hs
    rw [execute_reduces_running eng s c c' cmd hc hr hs, execPhase_calls]
    rfl

/-- C4 witness: the auto-start theorem applied to a concrete exited
container and to a concrete running container on the benign engine. -/
theorem execute_autostart_witness :
    (ContainerManager.execute benignEngine ⟨some stoppedC, none⟩ "echo hi").calls
      = [EngineCall.reload, EngineCall.start, EngineCall.execRun "echo hi"]
    ∧ (ContainerManager.execute benignEngine ⟨some runningC, none⟩ "echo hi").calls
      = [EngineCall.reload, EngineCall.execRun "echo hi"] := by
  exact ⟨(execute_autostart benignEngine ⟨some stoppedC, none⟩ stoppedC stoppedC
      "echo hi" rfl rfl).1 (by decide) rfl,
    (execute_autostart benignEngine ⟨some runningC, none⟩ runningC runningC
      "echo hi" rfl rfl).2 rfl⟩

/-- The final engine remove call appends exactly one remove call, whatever
the outcome. -/
theorem removeFinal_calls (eng : Engine) (s : ManagerState) (c : Container)
    (force : Bool) (calls : List EngineCall) :
    (ContainerManager.removeFinal eng s c force calls).calls
      = calls ++ [EngineCall.remove force] := by
  unfold ContainerManager.removeFinal
  split <;> rfl

/-- When the engine remove call succeeds, removeFinal returns None and
clears both manager fields. -/
theorem removeFinal_ok (eng : Engine) (s : ManagerState) (c : Container)
    (force : Bool) (calls : List EngineCall)
    (h : eng.removeContainer c force = .ok ()) :
    (ContainerManager.removeFinal eng s c force calls).result = .ok ()
    ∧ (ContainerManager.removeFinal eng s c force calls).state = ⟨none, none⟩ := by
  unfold ContainerManager.removeFinal
  rw [h]
  exact ⟨rfl, rfl⟩

/-- C5: on a held handle, remove without force reloads and stops a running
container before the engine remove call and, on success, clears the handle
and the bound spec; remove with force issues only the engine remove call —
no reload and no stop — and on success clears both fields likewise. -/
theorem remove_stop_discipline (eng : Engine) (s : ManagerState) (c : Container)
    (hc : s.container = some c) :
    (∀ c', eng.reload c = .ok c' → c'.status = "running" → eng.stop c' = .ok () →
        (ContainerManager.remove eng s false).calls
          = [EngineCall.reload, EngineCall.stop, EngineCall.remove false]
        ∧ (eng.removeContainer c' false = .ok () →
            (ContainerManager.remove eng s false).result = .ok ()
            ∧ (ContainerManager.remove eng s false).state = ⟨none, none⟩))
    ∧ ((ContainerManager.remove eng s true).calls = [EngineCall.remove true]
        ∧ (eng.removeContainer c true = .ok () →
            (ContainerManager.remove eng s true).result = .ok ()
            ∧ (ContainerManager.remove eng s true).state = ⟨none, none⟩)) := by
  constructor
  · intro c' hrel hrun hstop
    have hred : ContainerManager.remove eng s false
        = ContainerManager.removeFinal eng { s with container := some c' } c' false
            [.reload, .stop] := by
      unfold ContainerManager.remove
      rw [hc]
      dsimp only
      rw [if_pos (by decide)]
      rw [hrel]
      dsimp only
      rw [if_pos hrun, hstop]
    refine ⟨?_, ?_⟩
    · rw [hred, removeFinal_calls]
      rfl
    · intro hrm
      rw [hred]
      exact removeFinal_ok eng { s with container := some c' } c' false
        [.reload, .stop] hrm
  · have hred : ContainerManager.remove eng s true
        = ContainerManager.removeFinal eng s c true [] := by
      unfold ContainerManager.remove
      rw [hc]
      dsimp only
      rw [if_neg (by decide)]
    refine ⟨?_, ?_⟩
    · rw [hred, removeFinal_calls]
      rfl
    · intro hrm
      rw [hred]
      exact removeFinal_ok eng s c true [] hrm

/-- C5 witness: the remove discipline applied to a concrete running
container on the benign engine, for both force values. -/
theorem remove_stop_discipline_witness :
    (ContainerManager.remove benignEngine ⟨some runningC, some sampleConfig⟩ false).calls
      = [EngineCall.reload, EngineCall.stop, EngineCall.remove false]
    ∧ (ContainerManager.remove benignEngine ⟨some runningC, some sampleConfig⟩ false).state
      = ⟨none, none⟩
    ∧ (ContainerManager.remove benignEngine ⟨some runningC, some sampleConfig⟩ true).calls
      = [EngineCall.remove true]
    ∧ (ContainerManager.remove benignEngine ⟨some runningC, some sampleConfig⟩ true).state
      = ⟨none, none⟩ := by
  have h := remove_stop_discipline benignEngine ⟨some runningC, some sampleConfig⟩
      runningC rfl
  have h1 := h.1 runningC rfl rfl rfl
  exact ⟨h1.1, (h1.2 rfl).2, h.2.1, (h.2.2 rfl).2⟩

/-- An engine on which every command exits 1 capturing neither stdout nor
stderr (exec_run with demux=True returns (None, None) for a silent
command). -/
def noOutputFailEngine : Engine :=
  { benignEngine with execRun := fun _ _ => .ok (1, none, none) }

/-- C6 counterexample: a command that exits non-zero while producing no
output at all does not get the typed execution error the claim promises —
the error-message expression dereferences .decode on None and a raw
AttributeError escapes execute. -/
theorem execute_nonzero_silent_raises_attribute_error :
    (ContainerManager.execute noOutputFailEngine ⟨some runningC, none⟩ "false").result
      = .error (.attributeError "NoneType object has no attribute decode") := by
  decide

/-- The exec_run phase raises ContainerExecuteError carrying the exit code
and the captured stderr (or stdout when stderr is empty) whenever the exit
code is non-zero and at least one stream was captured. -/
theorem execPhase_result_nonzero (eng : Engine) (s : ManagerState) (c : Container)
    (cmd : String) (calls : List EngineCall) (code : Int) (out0 out1 : Option String)
    (hx : eng.execRun c cmd = .ok (code, out0, out1)) (hcode : code ≠ 0)
    (hout : pyTruthy out1 = true ∨ out0 ≠ none) :
    (ContainerManager.execPhase eng s c cmd calls).result
      = .error (.containerExecuteError
          ("Command failed with exit code " ++ toString code ++ ": "
            ++ (if pyTruthy out1 then out1.getD "" else out0.getD ""))) := by
  unfold ContainerManager.execPhase
  rw [hx]
  dsimp only
  rw [if_pos hcode]
  by_cases hb : pyTruthy out1 = true
  · unfold ContainerManager.execErrorMessage
    rw [if_pos hb, if_pos hb]
  · have h0 : out0 ≠ none := by
      cases hout with
      | inl h => exact absurd h hb
      | inr h => exact h
    obtain ⟨t, ht⟩ : ∃ t, out0 = some t := by
      cases h0' : out0 with
      | none => exact absurd h0' h0
      | some t => exact ⟨t, rfl⟩
    unfold ContainerManager.execErrorMessage
    rw [if_neg hb, if_neg hb, ht]
    rfl

/-- When the exec_run phase returns normally, the command's exit code was
zero. -/
theorem execPhase_ok_code (eng : Engine) (s : ManagerState) (c : Container)
    (cmd : String) (calls : List EngineCall) (code : Int) (out0 out1 : Option String)
    (r : String) (hx : eng.execRun c cmd = .ok (code, out0, out1))
    (h : (ContainerManager.execPhase eng s c cmd calls).result = .ok r) :
    code = 0 := by
  by_cases hcode : code = 0
  · exact hcode
  · unfold ContainerManager.execPhase at h
    rw [hx] at h
    dsimp only at h
    rw [if_pos hcode] at h
    cases hm : ContainerManager.execErrorMessage out0 out1 <;> rw [hm] at h <;>
      exact absurd h (by simp)

/-- C6 (amended): for a command whose in-container run exits non-zero and
captures a stderr or a stdout stream, execute raises ContainerExecuteError
whose message carries the exit code and the stderr text (or the stdout text
when stderr is empty or absent); and execute returns normally only when the
exit code is zero.  When the failing run captures neither stream, the
message construction itself crashes with an untyped AttributeError
instead. -/
theorem execute_nonzero_raises_execute_error (eng : Engine) (s : ManagerState)
    (c c' : Container) (cmd : String) (code : Int) (out0 out1 : Option String)
    (hc : s.container = some c) (hr : eng.reload c = .ok c')
    (hst : c'.status ≠ "running" → eng.start c' = .ok ())
    (hx : eng.execRun c' cmd = .ok (code, out0, out1)) :
    (code ≠ 0 → (pyTruthy out1 = true ∨ out0 ≠ none) →
        (ContainerManager.execute eng s cmd).result
          = .error (.containerExecuteError
              ("Command failed with exit code " ++ toString code ++ ": "
                ++ (if pyTruthy out1 then out1.getD "" else out0.getD ""))))
    ∧ (∀ r, (ContainerManager.execute eng s cmd).result = .ok r → code = 0) := by
  constructor
  · intro hcode hout
    by_cases hs : c'.status = "running"
    · rw [execute_reduces_running eng s c c' cmd hc hr hs]
      exact execPhase_result_nonzero eng _ c' cmd [.reload] code out0 out1 hx hcode hout
    · rw [execute_reduces_start eng s c c' cmd hc hr hs (hst hs)]
      exact execPhase_result_nonzero eng _ c' cmd [.reload, .start] code out0 out1
        hx hcode hout
  · intro r h
    by_cases hs : c'.status = "running"
    · rw [execute_reduces_running eng s c c' cmd hc hr hs] at h
      exact execPhase_ok_code eng _ c' cmd [.reload] code out0 out1 r hx h
    · rw [execute_reduces_start eng s c c' cmd hc hr hs (hst hs)] at h
      exact execPhase_ok_code eng _ c' cmd [.reload, .start] code out0 out1 r hx h

/-- An engine on which every command exits 2 with stderr "boom" and no
stdout. -/
def stderrFailEngine : Engine :=
  { benignEngine with execRun := fun _ _ => .ok (2, none, some "boom") }

/-- C6 witness: the amended theorem applied to a concrete failing command
whose stderr was captured. -/
theorem execute_nonzero_raises_witness :
    (ContainerManager.execute stderrFailEngine ⟨some runningC, none⟩ "false").result
      = .error (.containerExecuteError "Command failed with exit code 2: boom") := by
  have h := (execute_nonzero_raises_execute_error stderrFailEngine
      ⟨some runningC, none⟩ runningC runningC "false" 2 none (some "boom")
      rfl rfl (fun hh => absurd rfl hh) rfl).1 (by decide) (Or.inl rfl)
  rw [h]
  decide

/-- Once the parser has re-defaulted an omitted mapping to the empty dict,
the serializer's truthiness filter is invisible. -/
theorem truthyMap_getD (o : Option (List (String × String))) :
    (if pyTruthyMap o then o else none).getD [] = o.getD [] := by
  cases o with
  | none => rfl
  | some m =>
      by_cases h : m = []
      · subst h; rfl
      · rw [if_pos (by simp [pyTruthyMap, h])]

/-- The lower-cased enumeration name the serializer writes is recovered by
the parser's upper-cased name lookup. -/
theorem osType_name_roundtrip (os : OSType) :
    osTypeFromName (pyUpper (pyLower (osTypeName os))) = some os := by
  cases os <;> rfl

/-- C8 (amended): parse of save recovers os_type and os_version exactly and
every truthy optional field exactly; an empty or absent name, working dir
and command stay absent, but an empty or absent volume or environment
mapping comes back as a present empty mapping — the parser's dict.get
default — rather than staying absent. -/
theorem parse_save_roundtrip (c : ContainerConfig) :
    ContainerConfigManager.parse_config (ContainerConfigManager.save_to_file c)
      = .ok { os_type := c.os_type
              os_version := c.os_version
              name := if pyTruthy c.name then c.name else none
              volumes := some (c.volumes.getD [])
              environment := some (c.environment.getD [])
              working_dir := if pyTruthy c.working_dir then c.working_dir else none
              command := if pyTruthy c.command then c.command else none } := by
  unfold ContainerConfigManager.parse_config ContainerConfigManager.parse_config_body
    ContainerConfigManager.save_to_file
  dsimp only
  rw [osType_name_roundtrip]
  dsimp only
  simp only [truthyMap_getD]

/-- A spec carrying only the required fields, every optional field at its
dataclass default None. -/
def bareConfig : ContainerConfig := { os_type := .ubuntu, os_version := some "22.04" }

/-- C8 counterexample: round-tripping a spec whose volume and environment
mappings are absent yields a config in which both mappings are present
empty dicts, not absent — the parser populates them with its dict.get
default. -/
theorem roundtrip_populates_default_mappings :
    ContainerConfigManager.parse_config (ContainerConfigManager.save_to_file bareConfig)
      = .ok { os_type := .ubuntu, os_version := some "22.04", name := none,
              volumes := some [], environment := some [], working_dir := none,
              command := none }
    ∧ bareConfig.volumes = none ∧ bareConfig.environment = none := by
  exact ⟨by decide, rfl, rfl⟩

/-- C9: a document carrying os_version and a string os_type whose
upper-cased form matches no enumeration member fails with the
ContainerConfigError that names the unsupported OS type (re-wrapped by the
parser's generic prefix but retaining the unsupported-OS message), and a
document whose os_type differs from a member only by case is accepted and
parses to that member. -/
theorem parse_config_unsupported_os :
    (∀ (d : Doc) (s : String) (v : Option String),
        d.os_type = some (some s) → d.os_version = some v →
        osTypeFromName (pyUpper s) = none →
        ContainerConfigManager.parse_config d
          = .error (.containerConfigError
              ("Error parsing config: Unsupported OS type: " ++ s)))
    ∧ (∀ (d : Doc) (s : String) (v : Option String) (os : OSType),
        d.os_type = some (some s) → d.os_version = some v →
        osTypeFromName (pyUpper s) = some os →
        ∃ c, ContainerConfigManager.parse_config d = .ok c ∧ c.os_type = os) := by
  constructor
  · intro d s v ht hv hu
    unfold ContainerConfigManager.parse_config ContainerConfigManager.parse_config_body
    rw [ht, hv]
    dsimp only
    rw [hu]
    dsimp only [pyExcMessage]
    rw [← String.append_assoc]
    rfl
  · intro d s v os ht hv ho
    unfold ContainerConfigManager.parse_config ContainerConfigManager.parse_config_body
    rw [ht, hv]
    dsimp only
    rw [ho]
    exact ⟨_, rfl, rfl⟩

/-- The scenario document of the spec: os_type "bogus", os_version "1". -/
def bogusDoc : Doc := { os_type := some (some "bogus"), os_version := some (some "1") }

/-- A document whose os_type differs from the enumeration value only by
case. -/
def casedDoc : Doc := { os_type := some (some "Ubuntu"), os_version := some (some "22.04") }

/-- C9 witness: the unsupported-OS theorem applied to the spec's bogus
document, and the acceptance half applied to a case-variant document. -/
theorem parse_config_unsupported_os_witness :
    ContainerConfigManager.parse_config bogusDoc
      = .error (.containerConfigError "Error parsing config: Unsupported OS type: bogus")
    ∧ ∃ c, ContainerConfigManager.parse_config casedDoc = .ok c
        ∧ c.os_type = OSType.ubuntu := by
  constructor
  · have h := parse_config_unsupported_os.1 bogusDoc "bogus" (some "1") rfl rfl (by decide)
    rw [h]
    decide
  · exact parse_config_unsupported_os.2 casedDoc "Ubuntu" (some "22.04") .ubuntu
      rfl rfl (by decide)
